import Mathlib

/-!
Shallow embedding of the EC software-sync engine
(src/3rdparty/vboot/firmware/lib/ec_sync.c) and of the boot-mode menu UI
(src/3rdparty/vboot/firmware/lib/vboot_ui_menu.c).

External collaborators (VbExEc*, VbEx* input/output) are modelled as a
deterministic oracle `Env : Nat → Response`: the n-th external call made by
the engine receives `env n`.  The engine state records the calls made so far
(`trace`), so frame properties ("no flash write", "no collaborator invoked")
are statements about the trace.

Numeric error codes and recovery-reason tags live in headers that are not
part of src/; the code only compares them for equality (with SUCCESS = 0),
so they are modelled as distinct naturals with SUCCESS = 0.

The build does not define PD_SYNC, so `do_pd_sync = 0` (ec_sync.c lines
356-361): only device 0 is processed by phases 1 and 2.
-/

/-- VBERROR_SUCCESS (vboot return code 0). -/
def VBERROR_SUCCESS : Nat := 0

/-- VBERROR_EC_REBOOT_TO_RO_REQUIRED, modelled as a distinct nonzero tag. -/
def VBERROR_EC_REBOOT_TO_RO_REQUIRED : Nat := 35

/-- VBERROR_SHUTDOWN_REQUESTED, modelled as a distinct nonzero tag. -/
def VBERROR_SHUTDOWN_REQUESTED : Nat := 36

/-- VBERROR_REBOOT_REQUIRED, modelled as a distinct nonzero tag. -/
def VBERROR_REBOOT_REQUIRED : Nat := 37

/-- VB2_SUCCESS (vb2 return code 0). -/
def VB2_SUCCESS : Nat := 0

/-- VB2_ERROR_EC_HASH_IMAGE, distinct nonzero tag. -/
def VB2_ERROR_EC_HASH_IMAGE : Nat := 201

/-- VB2_ERROR_EC_HASH_EXPECTED, distinct nonzero tag. -/
def VB2_ERROR_EC_HASH_EXPECTED : Nat := 202

/-- VB2_ERROR_EC_HASH_SIZE, distinct nonzero tag. -/
def VB2_ERROR_EC_HASH_SIZE : Nat := 203

/-- VB2_RECOVERY_EC_PROTECT recovery reason tag. -/
def VB2_RECOVERY_EC_PROTECT : Nat := 84

/-- VB2_RECOVERY_EC_HASH_FAILED recovery reason tag. -/
def VB2_RECOVERY_EC_HASH_FAILED : Nat := 85

/-- VB2_RECOVERY_EC_EXPECTED_HASH recovery reason tag. -/
def VB2_RECOVERY_EC_EXPECTED_HASH : Nat := 86

/-- VB2_RECOVERY_EC_HASH_SIZE recovery reason tag. -/
def VB2_RECOVERY_EC_HASH_SIZE : Nat := 87

/-- VB2_RECOVERY_EC_EXPECTED_IMAGE recovery reason tag. -/
def VB2_RECOVERY_EC_EXPECTED_IMAGE : Nat := 88

/-- VB2_RECOVERY_EC_UPDATE recovery reason tag. -/
def VB2_RECOVERY_EC_UPDATE : Nat := 89

/-- VB2_RECOVERY_EC_JUMP_RW recovery reason tag. -/
def VB2_RECOVERY_EC_JUMP_RW : Nat := 90

/-- VB2_RECOVERY_EC_SOFTWARE_SYNC recovery reason tag. -/
def VB2_RECOVERY_EC_SOFTWARE_SYNC : Nat := 91

/-- VB2_RECOVERY_EC_UNKNOWN_IMAGE recovery reason tag. -/
def VB2_RECOVERY_EC_UNKNOWN_IMAGE : Nat := 92

/-- enum VbSelectFirmware_t: READONLY, A, B. -/
inductive VbSelect
  | readonly
  | a
  | b
  deriving DecidableEq

/-- One external-collaborator call, as recorded in the trace. -/
inductive Call
  | runningRW (devidx : Nat)
  | hashImage (devidx : Nat) (select : VbSelect)
  | expectedHash (devidx : Nat) (select : VbSelect)
  | expectedImage (devidx : Nat) (select : VbSelect)
  | updateImage (devidx : Nat) (select : VbSelect) (image : List Nat)
  | jumpToRW (devidx : Nat)
  | protect (devidx : Nat) (select : VbSelect)
  | disableJump (devidx : Nat)
  | vbootDone (inRecovery : Bool)
  | batteryCutoff
  deriving DecidableEq

/-- Response of one external call: a return code, an in-RW report
(for VbExEcRunningRW) and a byte string (for hash / image fetches). -/
structure Response where
  rv : Nat := 0
  inRW : Bool := false
  data : List Nat := []
  deriving DecidableEq

/-- Deterministic oracle: the n-th external call receives `env n`. -/
abbrev Env := Nat → Response

/-- vb2_shared_data.flags bits used by ec_sync.c, as named booleans
(bit values live in a header outside src/; the code only uses the masks
VB2_SD_FLAG_ECSYNC_EC_RO/EC_RW/PD_RW/EC_IN_RW/PD_IN_RW and their unions). -/
structure SdFlags where
  ecsyncEcRo : Bool := false
  ecsyncEcRw : Bool := false
  ecsyncPdRw : Bool := false
  ecsyncEcInRw : Bool := false
  ecsyncPdInRw : Bool := false
  deriving DecidableEq

/-- Mask test for VB2_SD_FLAG_ECSYNC_RW = EC_RW | PD_RW (ec_sync.c:19). -/
def sdEcsyncRw (f : SdFlags) : Bool := f.ecsyncEcRw || f.ecsyncPdRw

/-- Mask test for VB2_SD_FLAG_ECSYNC_ANY = EC_RO | RW (ec_sync.c:21). -/
def sdEcsyncAny (f : SdFlags) : Bool := f.ecsyncEcRo || sdEcsyncRw f

/-- Mask test for VB2_SD_FLAG_ECSYNC_IN_RW = EC_IN_RW | PD_IN_RW (ec_sync.c:23). -/
def sdEcsyncInRw (f : SdFlags) : Bool := f.ecsyncEcInRw || f.ecsyncPdInRw

/-- IN_RW(devidx) mask test (ec_sync.c:26). -/
def testInRw (devidx : Nat) (f : SdFlags) : Bool :=
  if devidx = 0 then f.ecsyncEcInRw else f.ecsyncPdInRw

/-- Set the IN_RW(devidx) bit. -/
def setInRw (devidx : Nat) (f : SdFlags) : SdFlags :=
  if devidx = 0 then { f with ecsyncEcInRw := true } else { f with ecsyncPdInRw := true }

/-- WHICH_EC(devidx, select) mask test (ec_sync.c:29). -/
def testWhichEc (devidx : Nat) (select : VbSelect) (f : SdFlags) : Bool :=
  if select = VbSelect.readonly then f.ecsyncEcRo
  else if devidx = 0 then f.ecsyncEcRw else f.ecsyncPdRw

/-- Set the WHICH_EC(devidx, select) bit. -/
def setWhichEc (devidx : Nat) (select : VbSelect) (f : SdFlags) : SdFlags :=
  if select = VbSelect.readonly then { f with ecsyncEcRo := true }
  else if devidx = 0 then { f with ecsyncEcRw := true } else { f with ecsyncPdRw := true }

/-- Clear the WHICH_EC(devidx, select) bit. -/
def clearWhichEc (devidx : Nat) (select : VbSelect) (f : SdFlags) : SdFlags :=
  if select = VbSelect.readonly then { f with ecsyncEcRo := false }
  else if devidx = 0 then { f with ecsyncEcRw := false } else { f with ecsyncPdRw := false }

/-- The NV-storage keys read or written by ec_sync.c. -/
structure NvState where
  recoveryRequest : Nat := 0
  tryRoSync : Nat := 0
  batteryCutoffRequest : Nat := 0
  deriving DecidableEq

/-- VbSharedDataHeader fields read by ec_sync.c. -/
structure SharedHeader where
  ecSoftwareSync : Bool := false
  ecSlowUpdate : Bool := false
  fwWpEnabled : Bool := false
  firmwareIndex : Nat := 0
  recoveryReason : Nat := 0
  deriving DecidableEq

/-- GBB header flags read by ec_sync.c. -/
structure GbbFlags where
  disableEcSoftwareSync : Bool := false
  deriving DecidableEq

/-- Whole engine state: vb2 shared data (flags, recovery reason), the vboot1
shared header, GBB flags, NV store, plus the oracle position and the trace of
collaborator calls made so far. -/
structure EcState where
  sdFlags : SdFlags := {}
  sdRecoveryReason : Nat := 0
  shared : SharedHeader := {}
  gbb : GbbFlags := {}
  nv : NvState := {}
  calls : Nat := 0
  trace : List Call := []
  deriving DecidableEq

/-- Record one external call: advance the oracle position and append to the
trace.  The response itself is read separately as `env s.calls`. -/
def record (c : Call) (s : EcState) : EcState :=
  { s with calls := s.calls + 1, trace := s.trace ++ [c] }

/-- request_recovery (ec_sync.c:33): vb2_nv_set(VB2_NV_RECOVERY_REQUEST, r). -/
def request_recovery (s : EcState) (recoveryRequest : Nat) : EcState :=
  { s with nv := { s.nv with recoveryRequest := recoveryRequest } }

/-- protect_ec (ec_sync.c:43): VbExEcProtect wrapper that records
VB2_RECOVERY_EC_PROTECT on any error other than REBOOT_TO_RO_REQUIRED. -/
def protect_ec (env : Env) (devidx : Nat) (select : VbSelect) (s : EcState) :
    Nat × EcState :=
  let r := env s.calls
  let s1 := record (Call.protect devidx select) s
  if r.rv = VBERROR_EC_REBOOT_TO_RO_REQUIRED then (r.rv, s1)
  else if r.rv ≠ VBERROR_SUCCESS then (r.rv, request_recovery s1 VB2_RECOVERY_EC_PROTECT)
  else (r.rv, s1)

/-- check_ec_hash (ec_sync.c:83): compare the device's current image hash with
the expected hash; on mismatch set the WHICH_EC scratch bit.  Mismatch is not
an error (returns VB2_SUCCESS). -/
def check_ec_hash (env : Env) (devidx : Nat) (select : VbSelect) (s : EcState) :
    Nat × EcState :=
  let r1 := env s.calls
  let s1 := record (Call.hashImage devidx select) s
  if r1.rv ≠ 0 then
    (VB2_ERROR_EC_HASH_IMAGE, request_recovery s1 VB2_RECOVERY_EC_HASH_FAILED)
  else
    let r2 := env s1.calls
    let s2 := record (Call.expectedHash devidx select) s1
    if r2.rv ≠ 0 then
      (VB2_ERROR_EC_HASH_EXPECTED, request_recovery s2 VB2_RECOVERY_EC_EXPECTED_HASH)
    else if r1.data.length ≠ r2.data.length then
      (VB2_ERROR_EC_HASH_SIZE, request_recovery s2 VB2_RECOVERY_EC_HASH_SIZE)
    else if r1.data ≠ r2.data then
      (VB2_SUCCESS, { s2 with sdFlags := setWhichEc devidx select s2.sdFlags })
    else (VB2_SUCCESS, s2)

/-- update_ec (ec_sync.c:132): fetch the expected image, write it, clear the
WHICH_EC bit, re-hash and verify. -/
def update_ec (env : Env) (devidx : Nat) (select : VbSelect) (s : EcState) :
    Nat × EcState :=
  let r1 := env s.calls
  let s1 := record (Call.expectedImage devidx select) s
  if r1.rv ≠ 0 then (r1.rv, request_recovery s1 VB2_RECOVERY_EC_EXPECTED_IMAGE)
  else
    let r2 := env s1.calls
    let s2 := record (Call.updateImage devidx select r1.data) s1
    if r2.rv ≠ VBERROR_SUCCESS then
      if r2.rv ≠ VBERROR_EC_REBOOT_TO_RO_REQUIRED then
        (r2.rv, request_recovery s2 VB2_RECOVERY_EC_UPDATE)
      else (r2.rv, s2)
    else
      let s3 := { s2 with sdFlags := clearWhichEc devidx select s2.sdFlags }
      let h := check_ec_hash env devidx select s3
      if h.1 ≠ VB2_SUCCESS then (VBERROR_EC_REBOOT_TO_RO_REQUIRED, h.2)
      else if testWhichEc devidx select h.2.sdFlags then
        (VBERROR_EC_REBOOT_TO_RO_REQUIRED, request_recovery h.2 VB2_RECOVERY_EC_UPDATE)
      else (VBERROR_SUCCESS, h.2)

/-- check_ec_active (ec_sync.c:190): query which image the device is running;
in recovery mode force a reboot to RO if it is definitely in RW. -/
def check_ec_active (env : Env) (devidx : Nat) (s : EcState) : Nat × EcState :=
  let r := env s.calls
  let s1 := record (Call.runningRW devidx) s
  let s2 := if r.inRW then { s1 with sdFlags := setInRw devidx s1.sdFlags } else s1
  if s2.sdRecoveryReason ≠ 0 then
    if r.rv = VBERROR_SUCCESS ∧ r.inRW = true then
      (VBERROR_EC_REBOOT_TO_RO_REQUIRED, request_recovery s2 s2.sdRecoveryReason)
    else (VBERROR_SUCCESS, s2)
  else if r.rv ≠ VBERROR_SUCCESS then
    (VBERROR_EC_REBOOT_TO_RO_REQUIRED, request_recovery s2 VB2_RECOVERY_EC_UNKNOWN_IMAGE)
  else (VBERROR_SUCCESS, s2)

/-- RO_RETRIES (ec_sync.c:239): maximum times to retry flashing RO. -/
def RO_RETRIES : Nat := 2

/-- The RO-update retry loop of sync_one_ec (ec_sync.c:306-311): returns the
final num_tries value (number of failed attempts before success, or the fuel
if all attempts failed) and the resulting state. -/
def ro_update_tries (env : Env) (devidx : Nat) : Nat → EcState → Nat × EcState
  | 0, s => (0, s)
  | n + 1, s =>
    let u := update_ec env devidx VbSelect.readonly s
    if u.1 = VB2_SUCCESS then (0, u.2)
    else
      let rest := ro_update_tries env devidx n u.2
      (rest.1 + 1, rest.2)

/-- Clear the NV TRY_RO_SYNC flag (ec_sync.c:293). -/
def clearTryRo (s : EcState) : EcState :=
  { s with nv := { s.nv with tryRoSync := 0 } }

/-- The RO software-sync step of sync_one_ec (ec_sync.c:289-322): clear the
TRY_RO_SYNC NV flag, save RECOVERY_REQUEST, retry the RO update up to
RO_RETRIES times, restore RECOVERY_REQUEST if a retry succeeded after a
failure.  `some e` means sync_one_ec returns e immediately. -/
def ro_sync_step (env : Env) (devidx : Nat) (s : EcState) : Option Nat × EcState :=
  if s.sdFlags.ecsyncEcRo then
    let s1 := clearTryRo s
    let recoveryRequest := s1.nv.recoveryRequest
    let tries := ro_update_tries env devidx RO_RETRIES s1
    if tries.1 = RO_RETRIES then (some VBERROR_EC_REBOOT_TO_RO_REQUIRED, tries.2)
    else if tries.1 ≠ 0 then (none, request_recovery tries.2 recoveryRequest)
    else (none, tries.2)
  else (none, s)

/-- select_rw (ec_sync.c:254): the active RW slot, B if firmware_index else A. -/
def select_rw (s : EcState) : VbSelect :=
  if s.shared.firmwareIndex ≠ 0 then VbSelect.b else VbSelect.a

/-- The RW-image update step of sync_one_ec (ec_sync.c:261-265): gated on the
combined mask VB2_SD_FLAG_ECSYNC_RW.  `some e` means early return. -/
def rw_update_step (env : Env) (devidx : Nat) (selrw : VbSelect) (s : EcState) :
    Option Nat × EcState :=
  if sdEcsyncRw s.sdFlags then
    let u := update_ec env devidx selrw s
    if u.1 ≠ VB2_SUCCESS then (some VBERROR_EC_REBOOT_TO_RO_REQUIRED, u.2)
    else (none, u.2)
  else (none, s)

/-- The jump-to-RW step of sync_one_ec (ec_sync.c:267-286). -/
def jump_step (env : Env) (devidx : Nat) (s : EcState) : Option Nat × EcState :=
  if testInRw devidx s.sdFlags then (none, s)
  else
    let r := env s.calls
    let s1 := record (Call.jumpToRW devidx) s
    if r.rv ≠ VBERROR_SUCCESS then
      if r.rv ≠ VBERROR_EC_REBOOT_TO_RO_REQUIRED then
        (some VBERROR_EC_REBOOT_TO_RO_REQUIRED, request_recovery s1 VB2_RECOVERY_EC_JUMP_RW)
      else (some VBERROR_EC_REBOOT_TO_RO_REQUIRED, s1)
    else (none, s1)

/-- The protect-and-disable tail of sync_one_ec (ec_sync.c:324-341): protect
RO, protect the active RW slot, disable further jumps. -/
def protect_disable_step (env : Env) (devidx : Nat) (selrw : VbSelect) (s : EcState) :
    Nat × EcState :=
  let p1 := protect_ec env devidx VbSelect.readonly s
  if p1.1 ≠ VBERROR_SUCCESS then p1
  else
    let p2 := protect_ec env devidx selrw p1.2
    if p2.1 ≠ VBERROR_SUCCESS then p2
    else
      let r := env p2.2.calls
      let s3 := record (Call.disableJump devidx) p2.2
      if r.rv ≠ VBERROR_SUCCESS then
        (VBERROR_EC_REBOOT_TO_RO_REQUIRED, request_recovery s3 VB2_RECOVERY_EC_SOFTWARE_SYNC)
      else (r.rv, s3)

/-- The jump / RO-sync / protect sequence of sync_one_ec after the RW-update
step (ec_sync.c:267-341). -/
def sync_tail (env : Env) (devidx : Nat) (selrw : VbSelect) (s : EcState) :
    Nat × EcState :=
  let j := jump_step env devidx s
  match j.1 with
  | some e => (e, j.2)
  | none =>
    let ro := ro_sync_step env devidx j.2
    match ro.1 with
    | some e => (e, ro.2)
    | none => protect_disable_step env devidx selrw ro.2

/-- sync_one_ec (ec_sync.c:248): RW update, jump to RW, RO update with
retries, protect, disable jump, for one device. -/
def sync_one_ec (env : Env) (devidx : Nat) (s : EcState) : Nat × EcState :=
  let st1 := rw_update_step env devidx (select_rw s) s
  match st1.1 with
  | some e => (e, st1.2)
  | none => sync_tail env devidx (select_rw s) st1.2

/-- ec_sync_phase1 (ec_sync.c:344): decide what work is needed.  PD_SYNC is
not defined in this build, so do_pd_sync = 0 and only device 0 is checked. -/
def ec_sync_phase1 (env : Env) (s : EcState) : Nat × EcState :=
  if !s.shared.ecSoftwareSync then (VBERROR_SUCCESS, s)
  else if s.gbb.disableEcSoftwareSync then (VBERROR_SUCCESS, s)
  else
    let a := check_ec_active env 0 s
    if a.1 ≠ VBERROR_SUCCESS then (VBERROR_EC_REBOOT_TO_RO_REQUIRED, a.2)
    else if a.2.sdRecoveryReason ≠ 0 then (VBERROR_SUCCESS, a.2)
    else
      let h := check_ec_hash env 0 (select_rw a.2) a.2
      if h.1 ≠ 0 then (VBERROR_EC_REBOOT_TO_RO_REQUIRED, h.2)
      else
        let ro :=
          if h.2.nv.tryRoSync ≠ 0 ∧ h.2.shared.fwWpEnabled = false then
            check_ec_hash env 0 VbSelect.readonly h.2
          else (0, h.2)
        if ro.1 ≠ 0 then (VBERROR_EC_REBOOT_TO_RO_REQUIRED, ro.2)
        else if sdEcsyncRw ro.2.sdFlags = true ∧ sdEcsyncInRw ro.2.sdFlags = true then
          (VBERROR_EC_REBOOT_TO_RO_REQUIRED, ro.2)
        else (VBERROR_SUCCESS, ro.2)

/-- ec_will_update_slowly (ec_sync.c:413): a pure predicate on the shared
state; returns the state unchanged. -/
def ec_will_update_slowly (s : EcState) : Bool × EcState :=
  (sdEcsyncAny s.sdFlags && s.shared.ecSlowUpdate, s)

/-- ec_sync_phase2 (ec_sync.c:424): execute updates and jumps.  PD_SYNC is
not defined, so only device 0 is synced. -/
def ec_sync_phase2 (env : Env) (s : EcState) : Nat × EcState :=
  if !s.shared.ecSoftwareSync then (VBERROR_SUCCESS, s)
  else if s.gbb.disableEcSoftwareSync then (VBERROR_SUCCESS, s)
  else if s.sdRecoveryReason ≠ 0 then (VBERROR_SUCCESS, s)
  else
    let r := sync_one_ec env 0 s
    if r.1 ≠ VBERROR_SUCCESS then r
    else (VBERROR_SUCCESS, r.2)

/-- ec_sync_phase3 (ec_sync.c:455): notify the EC that vboot is done, then
handle a pending battery-cutoff request. -/
def ec_sync_phase3 (env : Env) (s : EcState) : Nat × EcState :=
  let r := env s.calls
  let s1 := record (Call.vbootDone (s.shared.recoveryReason != 0)) s
  if r.rv ≠ 0 then (r.rv, s1)
  else if s1.nv.batteryCutoffRequest ≠ 0 then
    let s2 := { s1 with nv := { s1.nv with batteryCutoffRequest := 0 } }
    let s3 := record Call.batteryCutoff s2
    (VBERROR_SHUTDOWN_REQUESTED, s3)
  else (VBERROR_SUCCESS, s1)

/-- Flash-write collaborators in the sense of the spec's invariant 1:
image update, protect, jump to RW, disable jump. -/
def isFlashWrite : Call → Bool
  | Call.updateImage _ _ _ => true
  | Call.protect _ _ => true
  | Call.jumpToRW _ => true
  | Call.disableJump _ => true
  | _ => false

/-!
Boot-mode UI (vboot_ui_menu.c).  The menu state machine's module globals
become a `MenuState` record; keyboard/switch reads the blocking loops consume
become explicit event lists.
-/

/-- VB_MENU (vboot_ui_menu.c:163). -/
inductive VbMenu
  | devWarning
  | dev
  | toNorm
  | recovery
  | toDev
  | languages
  deriving DecidableEq

/-- The size of each menu, as returned through the size out-parameter of
vb2_get_current_menu_size (vboot_ui_menu.c:284): the VB_*_COUNT enumerators. -/
def vb2_get_current_menu_size : VbMenu → Nat
  | VbMenu.devWarning => 5
  | VbMenu.dev => 7
  | VbMenu.toNorm => 4
  | VbMenu.recovery => 4
  | VbMenu.toDev => 4
  | VbMenu.languages => 1

/-- Module-scoped menu state of vboot_ui_menu.c (lines 225-229). -/
structure MenuState where
  current_menu : VbMenu := VbMenu.devWarning
  prev_menu : VbMenu := VbMenu.devWarning
  current_menu_idx : Nat := 3
  selected : Bool := false
  default_boot : Nat := 0
  deriving DecidableEq

/-- vb2_set_menu_items (vboot_ui_menu.c:364). -/
def vb2_set_menu_items (newMenu : VbMenu) (newIdx : Nat) (s : MenuState) : MenuState :=
  { s with prev_menu := s.current_menu, current_menu := newMenu,
           current_menu_idx := newIdx, selected := false }

/-- VBNV_DEV_DEFAULT_BOOT_DISK / USB / LEGACY NV values (header outside src/,
modelled as 0 / 1 / 2). -/
def VBNV_DEV_DEFAULT_BOOT_DISK : Nat := 0

/-- VBNV_DEV_DEFAULT_BOOT_USB NV value. -/
def VBNV_DEV_DEFAULT_BOOT_USB : Nat := 1

/-- VBNV_DEV_DEFAULT_BOOT_LEGACY NV value. -/
def VBNV_DEV_DEFAULT_BOOT_LEGACY : Nat := 2

/-- vb2_update_menu (vboot_ui_menu.c:381): the per-item transition table run
when the user commits the current item.  Returns the VbError result
(VBERROR_SHUTDOWN_REQUESTED for Power Off items) and the new state.  The
LANGUAGES arm falls through to the outer default, which only logs. -/
def vb2_update_menu (s : MenuState) : Nat × MenuState :=
  match s.current_menu with
  | VbMenu.devWarning =>
    if s.current_menu_idx = 0 then
      let next :=
        if s.default_boot = VBNV_DEV_DEFAULT_BOOT_DISK then 3
        else if s.default_boot = VBNV_DEV_DEFAULT_BOOT_USB then 2
        else if s.default_boot = VBNV_DEV_DEFAULT_BOOT_LEGACY then 1
        else s.current_menu_idx
      (VBERROR_SUCCESS, vb2_set_menu_items VbMenu.dev next s)
    else if s.current_menu_idx = 1 then (VBERROR_SUCCESS, s)
    else if s.current_menu_idx = 2 then
      (VBERROR_SUCCESS, vb2_set_menu_items VbMenu.toNorm 2 s)
    else if s.current_menu_idx = 3 then (VBERROR_SHUTDOWN_REQUESTED, s)
    else if s.current_menu_idx = 4 then
      (VBERROR_SUCCESS, vb2_set_menu_items VbMenu.languages 0 s)
    else (VBERROR_SUCCESS, s)
  | VbMenu.dev =>
    if s.current_menu_idx = 4 then
      (VBERROR_SUCCESS, vb2_set_menu_items VbMenu.devWarning 3 s)
    else if s.current_menu_idx = 5 then (VBERROR_SHUTDOWN_REQUESTED, s)
    else if s.current_menu_idx = 6 then
      (VBERROR_SUCCESS, vb2_set_menu_items VbMenu.languages 0 s)
    else (VBERROR_SUCCESS, s)
  | VbMenu.toNorm =>
    if s.current_menu_idx = 1 then
      (VBERROR_SUCCESS, vb2_set_menu_items VbMenu.devWarning 3 s)
    else if s.current_menu_idx = 2 then (VBERROR_SHUTDOWN_REQUESTED, s)
    else if s.current_menu_idx = 3 then
      (VBERROR_SUCCESS, vb2_set_menu_items VbMenu.languages 0 s)
    else (VBERROR_SUCCESS, s)
  | VbMenu.recovery =>
    if s.current_menu_idx = 0 then
      (VBERROR_SUCCESS, vb2_set_menu_items VbMenu.toDev 2 s)
    else if s.current_menu_idx = 2 then (VBERROR_SHUTDOWN_REQUESTED, s)
    else if s.current_menu_idx = 3 then
      (VBERROR_SUCCESS, vb2_set_menu_items VbMenu.languages 0 s)
    else (VBERROR_SUCCESS, s)
  | VbMenu.toDev =>
    if s.current_menu_idx = 1 then
      (VBERROR_SUCCESS, vb2_set_menu_items VbMenu.recovery 2 s)
    else if s.current_menu_idx = 2 then (VBERROR_SHUTDOWN_REQUESTED, s)
    else if s.current_menu_idx = 3 then
      (VBERROR_SUCCESS, vb2_set_menu_items VbMenu.languages 0 s)
    else (VBERROR_SUCCESS, s)
  | VbMenu.languages =>
    (VBERROR_SUCCESS,
      { s with current_menu := s.prev_menu, current_menu_idx := 0,
               prev_menu := VbMenu.languages, selected := false })

/-- The index of the Language item in each menu that has one
(VB_WARN_LANGUAGE = 4, VB_DEV_LANGUAGE = 6, VB_TO_NORM_LANGUAGE = 3,
VB_RECOVERY_LANGUAGE = 3, VB_TO_DEV_LANGUAGE = 3). -/
def language_index : VbMenu → Nat
  | VbMenu.devWarning => 4
  | VbMenu.dev => 6
  | VbMenu.toNorm => 3
  | VbMenu.recovery => 3
  | VbMenu.toDev => 3
  | VbMenu.languages => 0

/-- An Up or Down navigation key (VB_KEY_UP / VB_BUTTON_VOL_UP and
VB_KEY_DOWN / VB_BUTTON_VOL_DOWN collapse to the same handler). -/
inductive NavKey
  | up
  | down
  deriving DecidableEq

/-- One Up/Down key handling step, identical in vb2_developer_menu
(vboot_ui_menu.c:715-732) and vb2_recovery_menu (978-991): move the cursor
without wrapping, clamped to the current menu's size. -/
def menu_nav_step (m : VbMenu) (idx : Nat) : NavKey → Nat
  | NavKey.up => if idx > 0 then idx - 1 else idx
  | NavKey.down => if idx < vb2_get_current_menu_size m - 1 then idx + 1 else idx

/-- A run of Up/Down key events on a fixed menu. -/
def menu_nav_run (m : VbMenu) (idx : Nat) (keys : List NavKey) : Nat :=
  keys.foldl (menu_nav_step m) idx

/-- One poll iteration's inputs to VbUserConfirmsMenu: the shutdown poll
outcome, the keyboard key with its TRUSTED_KEYBOARD flag, and the recovery
button switch state. -/
structure ConfirmEvent where
  wantShutdown : Bool := false
  key : Nat := 0
  trustedKeyboard : Bool := false
  recButton : Bool := false
  deriving DecidableEq

/-- VbUserConfirmsMenu (vboot_ui_menu.c:94), over an explicit list of poll
events.  Arguments mustTrust and spaceMeansNo are the confirm_flags bits
VB_CONFIRM_MUST_TRUST_KEYBOARD and VB_CONFIRM_SPACE_MEANS_NO;
recSwitchVirtual is shared->flags & VBSD_BOOT_REC_SWITCH_VIRTUAL; the last
argument is rec_button_was_pressed.  Returns the confirm outcome (none if
the event list ran out while still polling) and the number of beeps emitted
(the only beep in the function is the untrusted-ENTER one, line 120). -/
def VbUserConfirmsMenu (mustTrust spaceMeansNo recSwitchVirtual : Bool) :
    List ConfirmEvent → Bool → Option Int × Nat
  | [], _ => (none, 0)
  | e :: rest, recPressed =>
    if e.wantShutdown then (some (-1), 0)
    else if e.key = 0x0D then
      if mustTrust && !e.trustedKeyboard then
        let r := VbUserConfirmsMenu mustTrust spaceMeansNo recSwitchVirtual rest recPressed
        (r.1, r.2 + 1)
      else (some 1, 0)
    else if e.key = 0x20 then
      if spaceMeansNo then (some 0, 0)
      else VbUserConfirmsMenu mustTrust spaceMeansNo recSwitchVirtual rest recPressed
    else if e.key = 0x1B then (some 0, 0)
    else if !recSwitchVirtual then
      if e.recButton then VbUserConfirmsMenu mustTrust spaceMeansNo recSwitchVirtual rest true
      else if recPressed then (some 1, 0)
      else VbUserConfirmsMenu mustTrust spaceMeansNo recSwitchVirtual rest recPressed
    else VbUserConfirmsMenu mustTrust spaceMeansNo recSwitchVirtual rest recPressed

/-! Helper lemmas about the state primitives. -/

theorem record_trace (c : Call) (s : EcState) : (record c s).trace = s.trace ++ [c] := rfl

theorem record_nv (c : Call) (s : EcState) : (record c s).nv = s.nv := rfl

theorem request_recovery_trace (s : EcState) (n : Nat) :
    (request_recovery s n).trace = s.trace := rfl

/-- C10: ec_will_update_slowly is true exactly when at least one needs-update
scratch bit (EC_RO, EC_RW or PD_RW) and the EC_SLOW_UPDATE shared flag are
set; it returns the state unchanged (it reads no NV key and performs no
external call). -/
theorem ec_will_update_slowly_spec (s : EcState) :
    ((ec_will_update_slowly s).1 = true ↔
      ((s.sdFlags.ecsyncEcRo = true ∨ s.sdFlags.ecsyncEcRw = true ∨
        s.sdFlags.ecsyncPdRw = true) ∧ s.shared.ecSlowUpdate = true)) ∧
    (ec_will_update_slowly s).2 = s := by
  constructor
  · simp [ec_will_update_slowly, sdEcsyncAny, sdEcsyncRw, or_assoc]
  · rfl

/-- C5: in recovery mode (recovery_reason nonzero), ec_sync_phase2 returns
VBERROR_SUCCESS with the state — scratch flags, NV store, call trace —
completely unchanged: no collaborator is invoked. -/
theorem ec_sync_phase2_recovery_noop (env : Env) (s : EcState)
    (hrec : s.sdRecoveryReason ≠ 0) :
    ec_sync_phase2 env s = (VBERROR_SUCCESS, s) := by
  unfold ec_sync_phase2
  by_cases hsync : s.shared.ecSoftwareSync
  · by_cases hgbb : s.gbb.disableEcSoftwareSync
    · simp [hsync, hgbb]
    · simp [hsync, hgbb, hrec]
  · simp [hsync]

/-- C5 witness. -/
theorem ec_sync_phase2_recovery_noop_witness :
    ec_sync_phase2 (fun _ => {}) { sdRecoveryReason := 7 } =
      (VBERROR_SUCCESS, { sdRecoveryReason := 7 }) :=
  ec_sync_phase2_recovery_noop (fun _ => {}) { sdRecoveryReason := 7 } (by decide)

/-- C3: when EC software sync is disabled (shared flag clear or GBB
DISABLE_EC_SOFTWARE_SYNC set), phases 1 and 2 return VBERROR_SUCCESS with the
state completely unchanged (no collaborator call, scratch flags and NV
untouched), and phase 3 invokes no flash-write collaborator (no image
update, no protect, no jump, no disable-jump) — indeed phase 3 never
invokes those in any state. -/
theorem ec_sync_disabled_frame (env : Env) (s : EcState)
    (hs : s.shared.ecSoftwareSync = false ∨ s.gbb.disableEcSoftwareSync = true)
    (ht : s.trace = []) :
    ec_sync_phase1 env s = (VBERROR_SUCCESS, s) ∧
    ec_sync_phase2 env s = (VBERROR_SUCCESS, s) ∧
    ∀ c ∈ ((ec_sync_phase3 env s).2).trace, isFlashWrite c = false := by
  refine ⟨?_, ?_, ?_⟩
  · unfold ec_sync_phase1
    rcases hs with h | h
    · simp [h]
    · by_cases hsync : s.shared.ecSoftwareSync <;> simp [h, hsync]
  · unfold ec_sync_phase2
    rcases hs with h | h
    · simp [h]
    · by_cases hsync : s.shared.ecSoftwareSync <;> simp [h, hsync]
  · intro c hc
    unfold ec_sync_phase3 at hc
    simp only [record, ht] at hc
    split at hc
    · simp at hc
      simp [hc, isFlashWrite]
    · split at hc
      · simp at hc
        rcases hc with h | h <;> simp [h, isFlashWrite]
      · simp at hc
        simp [hc, isFlashWrite]

/-- C3 witness. -/
theorem ec_sync_disabled_frame_witness :
    ec_sync_phase1 (fun _ => {}) { gbb := { disableEcSoftwareSync := true } } =
      (VBERROR_SUCCESS, { gbb := { disableEcSoftwareSync := true } }) ∧
    ec_sync_phase2 (fun _ => {}) { gbb := { disableEcSoftwareSync := true } } =
      (VBERROR_SUCCESS, { gbb := { disableEcSoftwareSync := true } }) ∧
    ∀ c ∈ ((ec_sync_phase3 (fun _ => {})
        { gbb := { disableEcSoftwareSync := true } }).2).trace,
      isFlashWrite c = false :=
  ec_sync_disabled_frame (fun _ => {}) { gbb := { disableEcSoftwareSync := true } }
    (Or.inr rfl) rfl

/-- C7: ec_sync_phase3 first notifies the EC that vboot is done, passing the
recovery-mode flag (the vboot-done call is always the first and only
collaborator invoked before any battery cutoff).  If that call fails, its
code is returned with no cutoff.  If it succeeds: a nonzero NV
BATTERY_CUTOFF_REQUEST is cleared to 0, the battery-cutoff collaborator is
invoked (after the vboot-done notification) and SHUTDOWN_REQUESTED is
returned; a zero request yields VBERROR_SUCCESS with no cutoff call. -/
theorem ec_sync_phase3_spec (env : Env) (s : EcState) (ht : s.trace = []) :
    ((env s.calls).rv ≠ VBERROR_SUCCESS →
      ec_sync_phase3 env s =
        ((env s.calls).rv,
          { s with calls := s.calls + 1,
                   trace := [Call.vbootDone (s.shared.recoveryReason != 0)] })) ∧
    ((env s.calls).rv = VBERROR_SUCCESS → s.nv.batteryCutoffRequest ≠ 0 →
      (ec_sync_phase3 env s).1 = VBERROR_SHUTDOWN_REQUESTED ∧
      ((ec_sync_phase3 env s).2).nv.batteryCutoffRequest = 0 ∧
      ((ec_sync_phase3 env s).2).trace =
        [Call.vbootDone (s.shared.recoveryReason != 0), Call.batteryCutoff]) ∧
    ((env s.calls).rv = VBERROR_SUCCESS → s.nv.batteryCutoffRequest = 0 →
      ec_sync_phase3 env s =
        (VBERROR_SUCCESS,
          { s with calls := s.calls + 1,
                   trace := [Call.vbootDone (s.shared.recoveryReason != 0)] })) := by
  refine ⟨?_, ?_, ?_⟩
  · intro h
    have h0 : (env s.calls).rv ≠ 0 := by simpa [VBERROR_SUCCESS] using h
    unfold ec_sync_phase3
    simp [h0, record, ht]
  · intro h hb
    unfold ec_sync_phase3
    simp [h, record, ht, VBERROR_SUCCESS, hb]
  · intro h hb
    unfold ec_sync_phase3
    simp [h, record, ht, VBERROR_SUCCESS, hb]

/-- C7 witness: vboot-done succeeds and a battery cutoff is pending. -/
theorem ec_sync_phase3_spec_witness :
    (ec_sync_phase3 (fun _ => {}) { nv := { batteryCutoffRequest := 1 } }).1 =
      VBERROR_SHUTDOWN_REQUESTED ∧
    ((ec_sync_phase3 (fun _ => {}) { nv := { batteryCutoffRequest := 1 } }).2).nv.batteryCutoffRequest = 0 ∧
    ((ec_sync_phase3 (fun _ => {}) { nv := { batteryCutoffRequest := 1 } }).2).trace =
      [Call.vbootDone false, Call.batteryCutoff] :=
  (ec_sync_phase3_spec (fun _ => {}) { nv := { batteryCutoffRequest := 1 } } rfl).2.1
    rfl (by decide)

/-- C4: in recovery mode (sd recovery_reason nonzero) with sync enabled,
ec_sync_phase1 only performs the running-image query (trace is exactly
[runningRW 0]; no hash, expected-hash or update collaborator is invoked).
If that query succeeds and reports RW, the existing recovery reason is
written back to NV RECOVERY_REQUEST and REBOOT_TO_RO_REQUIRED is returned;
in every other case (EC in RO, or query failure) VBERROR_SUCCESS is
returned and the NV store is untouched. -/
theorem ec_sync_phase1_recovery (env : Env) (s : EcState)
    (hrec : s.sdRecoveryReason ≠ 0)
    (hsync : s.shared.ecSoftwareSync = true)
    (hgbb : s.gbb.disableEcSoftwareSync = false)
    (ht : s.trace = []) :
    (((env s.calls).rv = VBERROR_SUCCESS ∧ (env s.calls).inRW = true) →
      (ec_sync_phase1 env s).1 = VBERROR_EC_REBOOT_TO_RO_REQUIRED ∧
      ((ec_sync_phase1 env s).2).nv.recoveryRequest = s.sdRecoveryReason ∧
      ((ec_sync_phase1 env s).2).trace = [Call.runningRW 0]) ∧
    (¬((env s.calls).rv = VBERROR_SUCCESS ∧ (env s.calls).inRW = true) →
      (ec_sync_phase1 env s).1 = VBERROR_SUCCESS ∧
      ((ec_sync_phase1 env s).2).nv = s.nv ∧
      ((ec_sync_phase1 env s).2).trace = [Call.runningRW 0]) := by
  constructor
  · intro h
    obtain ⟨hrv, hin⟩ := h
    have hrv0 : (env s.calls).rv = 0 := hrv
    unfold ec_sync_phase1 check_ec_active
    simp [hsync, hgbb, hrec, hrv0, hin, record, request_recovery, setInRw, ht,
      VBERROR_SUCCESS, VBERROR_EC_REBOOT_TO_RO_REQUIRED]
  · intro h
    unfold ec_sync_phase1 check_ec_active
    by_cases hin : (env s.calls).inRW
    · have hrv : ¬(env s.calls).rv = 0 := fun h0 => h ⟨h0, hin⟩
      simp [hsync, hgbb, hrec, hin, hrv, record, request_recovery, setInRw, ht,
        VBERROR_SUCCESS]
    · by_cases hrv : (env s.calls).rv = 0 <;>
        simp [hsync, hgbb, hrec, hin, hrv, record, request_recovery, setInRw, ht,
          VBERROR_SUCCESS]

/-- C4 witness: recovery mode, query succeeds and reports the EC in RW. -/
theorem ec_sync_phase1_recovery_witness :
    (ec_sync_phase1 (fun _ => { inRW := true })
        { sdRecoveryReason := 18, shared := { ecSoftwareSync := true } }).1 =
      VBERROR_EC_REBOOT_TO_RO_REQUIRED ∧
    ((ec_sync_phase1 (fun _ => { inRW := true })
        { sdRecoveryReason := 18, shared := { ecSoftwareSync := true } }).2).nv.recoveryRequest = 18 ∧
    ((ec_sync_phase1 (fun _ => { inRW := true })
        { sdRecoveryReason := 18, shared := { ecSoftwareSync := true } }).2).trace =
      [Call.runningRW 0] :=
  (ec_sync_phase1_recovery (fun _ => { inRW := true })
      { sdRecoveryReason := 18, shared := { ecSoftwareSync := true } }
      (by decide) rfl rfl rfl).1 ⟨rfl, rfl⟩

/-- One Up/Down step keeps the index below the menu size. -/
theorem menu_nav_step_lt (m : VbMenu) (idx : Nat) (k : NavKey)
    (h : idx < vb2_get_current_menu_size m) :
    menu_nav_step m idx k < vb2_get_current_menu_size m := by
  cases k <;> simp only [menu_nav_step] <;> split <;> omega

/-- C9: in the developer and recovery menu loops, any sequence of Up/Down
(volume-up/volume-down) key events keeps current_menu_idx inside
[0, size-1] of the current menu, and the index never wraps: Up at index 0
and Down at index size-1 leave the index unchanged. -/
theorem menu_nav_no_wrap :
    (∀ (m : VbMenu) (keys : List NavKey) (idx : Nat),
      idx < vb2_get_current_menu_size m →
      menu_nav_run m idx keys < vb2_get_current_menu_size m) ∧
    (∀ m : VbMenu, menu_nav_step m 0 NavKey.up = 0) ∧
    (∀ m : VbMenu,
      menu_nav_step m (vb2_get_current_menu_size m - 1) NavKey.down =
        vb2_get_current_menu_size m - 1) := by
  refine ⟨?_, ?_, ?_⟩
  · intro m keys
    induction keys with
    | nil => intro idx h; exact h
    | cons k ks ih =>
      intro idx h
      exact ih (menu_nav_step m idx k) (menu_nav_step_lt m idx k h)
  · intro m; rfl
  · intro m
    simp [menu_nav_step]

/-- C9 witness: a concrete run on the DEV menu staying in range. -/
theorem menu_nav_no_wrap_witness :
    menu_nav_run VbMenu.dev 3 [NavKey.up, NavKey.up, NavKey.up, NavKey.up,
      NavKey.down, NavKey.down, NavKey.down, NavKey.down, NavKey.down,
      NavKey.down, NavKey.down, NavKey.down] < vb2_get_current_menu_size VbMenu.dev :=
  menu_nav_no_wrap.1 VbMenu.dev _ 3 (by decide)

/-- A menu state sitting on the DEV_WARNING menu's Language item
(index VB_WARN_LANGUAGE = 4). -/
def devWarningOnLanguage : MenuState :=
  { current_menu := VbMenu.devWarning, prev_menu := VbMenu.devWarning,
    current_menu_idx := 4, selected := false, default_boot := 0 }

/-- C2 counterexample: committing DEV_WARNING's Language item (index 4) and
then committing the LANGUAGES item returns to the DEV_WARNING menu but at
index 0, not at the index 4 that was current before entering LANGUAGES —
so the round trip does not restore the item index. -/
theorem vb2_language_round_trip_cex :
    ((vb2_update_menu (vb2_update_menu devWarningOnLanguage).2).2).current_menu =
      VbMenu.devWarning ∧
    devWarningOnLanguage.current_menu_idx = 4 ∧
    ((vb2_update_menu (vb2_update_menu devWarningOnLanguage).2).2).current_menu_idx = 0 := by
  decide

/-- C2 amended: committing a menu's Language item and then committing any
item of the LANGUAGES menu (at any index j) restores the original menu
(current_menu = m) but always sets current_index to 0, not to the
Language-item index that was current before entering LANGUAGES. -/
theorem vb2_language_round_trip (s : MenuState) (j : Nat)
    (h : s.current_menu ≠ VbMenu.languages) :
    ((vb2_update_menu
        { (vb2_update_menu
            { s with current_menu_idx := language_index s.current_menu }).2 with
          current_menu_idx := j }).2).current_menu = s.current_menu ∧
    ((vb2_update_menu
        { (vb2_update_menu
            { s with current_menu_idx := language_index s.current_menu }).2 with
          current_menu_idx := j }).2).current_menu_idx = 0 := by
  obtain ⟨cm, pm, idx, sel, db⟩ := s
  cases cm <;>
    simp [vb2_update_menu, vb2_set_menu_items, language_index] at h ⊢

/-- C2 witness for the amended theorem: the DEV menu's Language item. -/
theorem vb2_language_round_trip_witness :
    ((vb2_update_menu
        { (vb2_update_menu
            { current_menu := VbMenu.dev, prev_menu := VbMenu.dev,
              current_menu_idx := language_index VbMenu.dev, selected := false,
              default_boot := 0 }).2 with
          current_menu_idx := 0 }).2).current_menu = VbMenu.dev ∧
    ((vb2_update_menu
        { (vb2_update_menu
            { current_menu := VbMenu.dev, prev_menu := VbMenu.dev,
              current_menu_idx := language_index VbMenu.dev, selected := false,
              default_boot := 0 }).2 with
          current_menu_idx := 0 }).2).current_menu_idx = 0 := by
  have h := vb2_language_round_trip
    { current_menu := VbMenu.dev, prev_menu := VbMenu.dev,
      current_menu_idx := language_index VbMenu.dev, selected := false,
      default_boot := 0 } 0 (by decide)
  simpa using h

/-- Poll events driving VbUserConfirmsMenu through the physical
recovery-button press-then-release path: no keyboard key is ever pressed
and no event carries TRUSTED_KEYBOARD. -/
def recButtonEvents : List ConfirmEvent :=
  [{ wantShutdown := false, key := 0, trustedKeyboard := false, recButton := true },
   { wantShutdown := false, key := 0, trustedKeyboard := false, recButton := false }]

/-- C8 counterexample: with MUST_TRUST_KEYBOARD set and a non-virtual
recovery switch, a press-then-release of the physical recovery button makes
VbUserConfirmsMenu return YES (1) although no input event carries the
TRUSTED_KEYBOARD flag — so YES is not returned only for trusted-keyboard
events. -/
theorem VbUserConfirmsMenu_trusted_cex :
    (VbUserConfirmsMenu true false false recButtonEvents false).1 = some 1 ∧
    ∀ e ∈ recButtonEvents, e.trustedKeyboard = false := by
  decide

/-- C8 amended: with MUST_TRUST_KEYBOARD set, VbUserConfirmsMenu returns
YES (1) only through an ENTER event carrying TRUSTED_KEYBOARD or through
the physical recovery-button press-then-release path (non-virtual recovery
switch); an ENTER without the flag just beeps and polling continues. -/
theorem VbUserConfirmsMenu_trusted (sp virt : Bool) :
    (∀ (events : List ConfirmEvent) (recPressed : Bool),
      (VbUserConfirmsMenu true sp virt events recPressed).1 = some 1 →
      (∃ e ∈ events, e.key = 0x0D ∧ e.trustedKeyboard = true) ∨
      (virt = false ∧ (recPressed = true ∨ ∃ e ∈ events, e.recButton = true))) ∧
    (∀ (e : ConfirmEvent) (rest : List ConfirmEvent) (recPressed : Bool),
      e.wantShutdown = false → e.key = 0x0D → e.trustedKeyboard = false →
      VbUserConfirmsMenu true sp virt (e :: rest) recPressed =
        ((VbUserConfirmsMenu true sp virt rest recPressed).1,
         (VbUserConfirmsMenu true sp virt rest recPressed).2 + 1)) := by
  constructor
  · intro events
    induction events with
    | nil =>
      intro recPressed h
      simp [VbUserConfirmsMenu] at h
    | cons e rest ih =>
      intro recPressed h
      rw [VbUserConfirmsMenu] at h
      by_cases h1 : e.wantShutdown
      · simp [h1] at h
      by_cases h2 : e.key = 0x0D
      · by_cases h3 : e.trustedKeyboard
        · exact Or.inl ⟨e, List.mem_cons_self e rest, h2, h3⟩
        · simp only [h1, h2, h3, if_true, if_false, Bool.not_false, Bool.true_and,
            if_neg, ite_false, ite_true] at h
          rcases ih recPressed (by simpa [h1, h2, h3] using h) with hl | hr
          · obtain ⟨e', he', hk, htr⟩ := hl
            exact Or.inl ⟨e', List.mem_cons_of_mem e he', hk, htr⟩
          · exact Or.inr ⟨hr.1, hr.2.imp id (fun ⟨e', he', hb⟩ =>
              ⟨e', List.mem_cons_of_mem e he', hb⟩)⟩
      by_cases h4 : e.key = 0x20
      · by_cases hsp : sp
        · simp [h1, h2, h4, hsp] at h
        · rcases ih recPressed (by simpa [h1, h2, h4, hsp] using h) with hl | hr
          · obtain ⟨e', he', hk, htr⟩ := hl
            exact Or.inl ⟨e', List.mem_cons_of_mem e he', hk, htr⟩
          · exact Or.inr ⟨hr.1, hr.2.imp id (fun ⟨e', he', hb⟩ =>
              ⟨e', List.mem_cons_of_mem e he', hb⟩)⟩
      by_cases h5 : e.key = 0x1B
      · simp [h1, h2, h4, h5] at h
      by_cases h6 : virt
      · rcases ih recPressed (by simpa [h1, h2, h4, h5, h6] using h) with hl | hr
        · obtain ⟨e', he', hk, htr⟩ := hl
          exact Or.inl ⟨e', List.mem_cons_of_mem e he', hk, htr⟩
        · exact Or.inr ⟨hr.1, hr.2.imp id (fun ⟨e', he', hb⟩ =>
            ⟨e', List.mem_cons_of_mem e he', hb⟩)⟩
      · by_cases h7 : e.recButton
        · exact Or.inr ⟨by simpa using h6, Or.inr ⟨e, List.mem_cons_self e rest, h7⟩⟩
        · by_cases h8 : recPressed
          · exact Or.inr ⟨by simpa using h6, Or.inl (by simpa using h8)⟩
          · rcases ih recPressed (by simpa [h1, h2, h4, h5, h6, h7, h8] using h) with hl | hr
            · obtain ⟨e', he', hk, htr⟩ := hl
              exact Or.inl ⟨e', List.mem_cons_of_mem e he', hk, htr⟩
            · exact Or.inr ⟨hr.1, hr.2.imp id (fun ⟨e', he', hb⟩ =>
                ⟨e', List.mem_cons_of_mem e he', hb⟩)⟩
  · intro e rest recPressed hw hk htr
    rw [VbUserConfirmsMenu]
    simp [hw, hk, htr]

/-- C8 witness for the amended theorem: a trusted ENTER event yields YES. -/
theorem VbUserConfirmsMenu_trusted_witness :
    (∃ e ∈ [({ wantShutdown := false, key := 0x0D, trustedKeyboard := true,
               recButton := false } : ConfirmEvent)],
        e.key = 0x0D ∧ e.trustedKeyboard = true) ∨
    (true = false ∧ (false = true ∨
      ∃ e ∈ [({ wantShutdown := false, key := 0x0D, trustedKeyboard := true,
                recButton := false } : ConfirmEvent)], e.recButton = true)) :=
  (VbUserConfirmsMenu_trusted false true).1
    [{ wantShutdown := false, key := 0x0D, trustedKeyboard := true, recButton := false }]
    false (by decide)

/-- C6: in the RO-update step of sync_one_ec, for every collaborator outcome
sequence where the first RO-update attempt fails and the second (within the
RO_RETRIES = 2 budget) succeeds, the NV RECOVERY_REQUEST after the step
equals its value on entry to the step (the value read right after
TRY_RO_SYNC was cleared — clearing TRY_RO_SYNC does not change
RECOVERY_REQUEST); if all attempts fail the step aborts, and sync_one_ec
returns VBERROR_EC_REBOOT_TO_RO_REQUIRED (shown for runs that reach the RO
step directly: RW bits clear and the device already in RW). -/
theorem ro_sync_step_retry (env : Env) (devidx : Nat) (s : EcState)
    (hro : s.sdFlags.ecsyncEcRo = true) :
    (((update_ec env devidx VbSelect.readonly (clearTryRo s)).1 ≠ VB2_SUCCESS) →
      ((update_ec env devidx VbSelect.readonly
          ((update_ec env devidx VbSelect.readonly (clearTryRo s)).2)).1 = VB2_SUCCESS) →
      (ro_sync_step env devidx s).1 = none ∧
      ((ro_sync_step env devidx s).2).nv.recoveryRequest = s.nv.recoveryRequest) ∧
    (((update_ec env devidx VbSelect.readonly (clearTryRo s)).1 ≠ VB2_SUCCESS) →
      ((update_ec env devidx VbSelect.readonly
          ((update_ec env devidx VbSelect.readonly (clearTryRo s)).2)).1 ≠ VB2_SUCCESS) →
      (ro_sync_step env devidx s).1 = some VBERROR_EC_REBOOT_TO_RO_REQUIRED) ∧
    (s.sdFlags.ecsyncEcRw = false → s.sdFlags.ecsyncPdRw = false →
      testInRw devidx s.sdFlags = true →
      ((update_ec env devidx VbSelect.readonly (clearTryRo s)).1 ≠ VB2_SUCCESS) →
      ((update_ec env devidx VbSelect.readonly
          ((update_ec env devidx VbSelect.readonly (clearTryRo s)).2)).1 ≠ VB2_SUCCESS) →
      (sync_one_ec env devidx s).1 = VBERROR_EC_REBOOT_TO_RO_REQUIRED) := by
  refine ⟨?_, ?_, ?_⟩
  · intro h1 h2
    unfold ro_sync_step
    simp only [hro, if_true, RO_RETRIES]
    simp [ro_update_tries, h1, h2, request_recovery]
    simp [clearTryRo]
  · intro h1 h2
    unfold ro_sync_step
    simp only [hro, if_true, RO_RETRIES]
    simp [ro_update_tries, h1, h2]
  · intro hrw hpd hin h1 h2
    have hstep : (ro_sync_step env devidx s).1 = some VBERROR_EC_REBOOT_TO_RO_REQUIRED := by
      unfold ro_sync_step
      simp only [hro, if_true, RO_RETRIES]
      simp [ro_update_tries, h1, h2]
    unfold sync_one_ec rw_update_step sync_tail jump_step
    simp only [sdEcsyncRw, hrw, hpd, Bool.or_self, Bool.false_eq_true, if_false, hin, if_true]
    rcases hro2 : ro_sync_step env devidx s with ⟨o, s2⟩
    rw [hro2] at hstep
    simp at hstep
    simp [hstep]

/-- An oracle for the C6 witness: the second external call (the first RO
image write, VbExEcUpdateImage) fails with an ordinary error; every other
call succeeds with empty data, so the re-hash after the second attempt
matches. -/
def roRetryEnv : Env := fun n => if n = 1 then { rv := 5 } else {}

/-- A state entering sync_one_ec with only the EC_RO needs-update bit set,
the EC already in RW, and a pending recovery request 77. -/
def roRetryState : EcState :=
  { sdFlags := { ecsyncEcRo := true, ecsyncEcInRw := true },
    nv := { recoveryRequest := 77, tryRoSync := 1 } }

/-- C6 witness: first RO attempt fails, second succeeds, and RECOVERY_REQUEST
is restored to its entry value 77. -/
theorem ro_sync_step_retry_witness :
    (ro_sync_step roRetryEnv 0 roRetryState).1 = none ∧
    ((ro_sync_step roRetryEnv 0 roRetryState).2).nv.recoveryRequest =
      roRetryState.nv.recoveryRequest :=
  (ro_sync_step_retry roRetryEnv 0 roRetryState rfl).1 (by decide) (by decide)

/-- check_ec_hash only appends to the call trace. -/
theorem check_ec_hash_trace (env : Env) (i : Nat) (sel : VbSelect) (s : EcState) :
    ∃ d, ((check_ec_hash env i sel s).2).trace = s.trace ++ d := by
  simp only [check_ec_hash]
  split
  · exact ⟨[Call.hashImage i sel], rfl⟩
  · split
    · exact ⟨[Call.hashImage i sel, Call.expectedHash i sel], by
        simp [record, request_recovery]⟩
    · split
      · exact ⟨[Call.hashImage i sel, Call.expectedHash i sel], by
          simp [record, request_recovery]⟩
      · split
        · exact ⟨[Call.hashImage i sel, Call.expectedHash i sel], by simp [record]⟩
        · exact ⟨[Call.hashImage i sel, Call.expectedHash i sel], by simp [record]⟩

/-- update_ec's first collaborator call is the expected-image fetch for the
selected slot: its trace is the input trace extended by
expectedImage i sel followed by further calls. -/
theorem update_ec_trace (env : Env) (i : Nat) (sel : VbSelect) (s : EcState) :
    ∃ d, ((update_ec env i sel s).2).trace = s.trace ++ Call.expectedImage i sel :: d := by
  simp only [update_ec]
  split
  · exact ⟨[], rfl⟩
  · split
    · split
      · exact ⟨[Call.updateImage i sel (env s.calls).data], by simp [record, request_recovery]⟩
      · exact ⟨[Call.updateImage i sel (env s.calls).data], by simp [record]⟩
    · obtain ⟨d, hd⟩ := check_ec_hash_trace env i sel
        { record (Call.updateImage i sel (env s.calls).data) (record (Call.expectedImage i sel) s) with
          sdFlags := clearWhichEc i sel
            (record (Call.updateImage i sel (env s.calls).data) (record (Call.expectedImage i sel) s)).sdFlags }
      split
      · exact ⟨Call.updateImage i sel (env s.calls).data :: d, by
          simp only [request_recovery, hd]
          simp [record]⟩
      · split
        · exact ⟨Call.updateImage i sel (env s.calls).data :: d, by
            simp only [request_recovery, hd]
            simp [record]⟩
        · exact ⟨Call.updateImage i sel (env s.calls).data :: d, by
            simp only [hd]
            simp [record]⟩

/-- protect_ec's only collaborator call is the protect call. -/
theorem protect_ec_trace (env : Env) (i : Nat) (sel : VbSelect) (s : EcState) :
    ((protect_ec env i sel s).2).trace = s.trace ++ [Call.protect i sel] := by
  simp only [protect_ec]
  split
  · rfl
  · split <;> rfl

/-- The RO retry loop only appends to the call trace. -/
theorem ro_update_tries_trace (env : Env) (i : Nat) (n : Nat) (s : EcState) :
    ∃ d, ((ro_update_tries env i n s).2).trace = s.trace ++ d := by
  induction n generalizing s with
  | zero => exact ⟨[], by simp [ro_update_tries]⟩
  | succ n ih =>
    simp only [ro_update_tries]
    obtain ⟨d, hd⟩ := update_ec_trace env i VbSelect.readonly s
    split
    · exact ⟨Call.expectedImage i VbSelect.readonly :: d, hd⟩
    · obtain ⟨d2, hd2⟩ := ih (update_ec env i VbSelect.readonly s).2
      exact ⟨Call.expectedImage i VbSelect.readonly :: d ++ d2, by
        simp [hd2, hd]⟩

/-- When the EC_RO bit is clear, the RO step does nothing. -/
theorem ro_sync_step_skip (env : Env) (i : Nat) (s : EcState)
    (h : s.sdFlags.ecsyncEcRo = false) :
    ro_sync_step env i s = (none, s) := by
  simp [ro_sync_step, h]

/-- When the EC_RO bit is set, the RO step's first collaborator call is the
expected RO image fetch. -/
theorem ro_sync_step_trace (env : Env) (i : Nat) (s : EcState)
    (h : s.sdFlags.ecsyncEcRo = true) :
    ∃ d, ((ro_sync_step env i s).2).trace =
      s.trace ++ Call.expectedImage i VbSelect.readonly :: d := by
  obtain ⟨d, hd⟩ := update_ec_trace env i VbSelect.readonly (clearTryRo s)
  obtain ⟨d2, hd2⟩ := update_ec_trace env i VbSelect.readonly
    (update_ec env i VbSelect.readonly (clearTryRo s)).2
  have hct : (clearTryRo s).trace = s.trace := rfl
  rw [hct] at hd
  simp only [ro_sync_step, h, if_true, RO_RETRIES, ro_update_tries]
  split
  · simp only []
    refine ⟨d, ?_⟩
    simp [hd]
  · split
    · refine ⟨d ++ Call.expectedImage i VbSelect.readonly :: d2, ?_⟩
      simp [request_recovery, hd2, hd]
    · refine ⟨d ++ Call.expectedImage i VbSelect.readonly :: d2, ?_⟩
      simp [hd2, hd]

/-- When the device is already in RW, the jump step does nothing. -/
theorem jump_step_skip (env : Env) (i : Nat) (s : EcState)
    (h : testInRw i s.sdFlags = true) :
    jump_step env i s = (none, s) := by
  simp [jump_step, h]

/-- When the device is not in RW, the jump step's only collaborator call is
the jump-to-RW call. -/
theorem jump_step_trace (env : Env) (i : Nat) (s : EcState)
    (h : testInRw i s.sdFlags = false) :
    ((jump_step env i s).2).trace = s.trace ++ [Call.jumpToRW i] := by
  simp only [jump_step, h, Bool.false_eq_true, if_false]
  split
  · split <;> rfl
  · rfl

/-- The protect-and-disable tail's first collaborator call is the RO
protect call. -/
theorem protect_disable_step_trace (env : Env) (i : Nat) (sel : VbSelect) (s : EcState) :
    ∃ d, ((protect_disable_step env i sel s).2).trace =
      s.trace ++ Call.protect i VbSelect.readonly :: d := by
  have h1 := protect_ec_trace env i VbSelect.readonly s
  have h2 := protect_ec_trace env i sel (protect_ec env i VbSelect.readonly s).2
  simp only [protect_disable_step]
  split
  · exact ⟨[], by simp [h1]⟩
  · split
    · exact ⟨[Call.protect i sel], by simp [h2, h1]⟩
    · split
      · exact ⟨[Call.protect i sel, Call.disableJump i], by
          simp [request_recovery, record, h2, h1]⟩
      · exact ⟨[Call.protect i sel, Call.disableJump i], by
          simp [record, h2, h1]⟩

/-- The RO step only appends to the call trace. -/
theorem ro_sync_step_mono (env : Env) (i : Nat) (s : EcState) :
    ∃ d, ((ro_sync_step env i s).2).trace = s.trace ++ d := by
  by_cases hro : s.sdFlags.ecsyncEcRo
  · obtain ⟨d, hd⟩ := ro_sync_step_trace env i s hro
    exact ⟨Call.expectedImage i VbSelect.readonly :: d, hd⟩
  · rw [ro_sync_step_skip env i s (by simpa using hro)]
    exact ⟨[], by simp⟩

/-- The protect-and-disable tail only appends to the call trace. -/
theorem protect_disable_step_mono (env : Env) (i : Nat) (sel : VbSelect) (s : EcState) :
    ∃ d, ((protect_disable_step env i sel s).2).trace = s.trace ++ d := by
  obtain ⟨d, hd⟩ := protect_disable_step_trace env i sel s
  exact ⟨Call.protect i VbSelect.readonly :: d, hd⟩

/-- The jump / RO / protect tail of sync_one_ec only appends to the trace,
and the first call it appends (if any) is a jump-to-RW, an expected RO
image fetch, or an RO protect — never an expected-image fetch for an RW
slot. -/
theorem sync_tail_trace (env : Env) (i : Nat) (sel : VbSelect) (s : EcState) :
    ∃ d, ((sync_tail env i sel s).2).trace = s.trace ++ d ∧
      (∀ c, d.head? = some c →
        c = Call.jumpToRW i ∨ c = Call.expectedImage i VbSelect.readonly ∨
        c = Call.protect i VbSelect.readonly) := by
  by_cases hin : testInRw i s.sdFlags
  · rw [sync_tail, jump_step_skip env i s hin]
    by_cases hro : s.sdFlags.ecsyncEcRo
    · obtain ⟨d, hd⟩ := ro_sync_step_trace env i s hro
      rcases hros : ro_sync_step env i s with ⟨o, s2⟩
      rw [hros] at hd
      cases o with
      | some e =>
        refine ⟨Call.expectedImage i VbSelect.readonly :: d, hd, ?_⟩
        intro c hc
        simp at hc
        simp [hc]
      | none =>
        obtain ⟨d2, hd2⟩ := protect_disable_step_mono env i sel s2
        refine ⟨Call.expectedImage i VbSelect.readonly :: (d ++ d2), ?_, ?_⟩
        · simp only []
          rw [hd2, hd]
          simp
        · intro c hc
          simp at hc
          simp [hc]
    · rw [ro_sync_step_skip env i s (by simpa using hro)]
      obtain ⟨d2, hd2⟩ := protect_disable_step_trace env i sel s
      refine ⟨Call.protect i VbSelect.readonly :: d2, hd2, ?_⟩
      intro c hc
      simp at hc
      simp [hc]
  · have hj := jump_step_trace env i s (by simpa using hin)
    rw [sync_tail]
    rcases hjs : jump_step env i s with ⟨o, s1⟩
    rw [hjs] at hj
    cases o with
    | some e =>
      refine ⟨[Call.jumpToRW i], hj, ?_⟩
      intro c hc
      simp at hc
      simp [hc]
    | none =>
      obtain ⟨dr, hdr⟩ := ro_sync_step_mono env i s1
      rcases hros : ro_sync_step env i s1 with ⟨o2, s2⟩
      rw [hros] at hdr
      cases o2 with
      | some e =>
        refine ⟨Call.jumpToRW i :: dr, ?_, ?_⟩
        · simp only []
          rw [hdr, hj]
          simp
        · intro c hc
          simp at hc
          simp [hc]
      | none =>
        obtain ⟨dp, hdp⟩ := protect_disable_step_mono env i sel s2
        refine ⟨Call.jumpToRW i :: (dr ++ dp), ?_, ?_⟩
        · simp only []
          rw [hdp, hdr, hj]
          simp
        · intro c hc
          simp at hc
          simp [hc]

/-- The active RW slot is never the RO image. -/
theorem select_rw_ne_readonly (s : EcState) : select_rw s ≠ VbSelect.readonly := by
  unfold select_rw
  split <;> simp

/-- C1 amended: in sync_one_ec the RW image update step runs if and only if
the combined mask VB2_SD_FLAG_ECSYNC_RW (EC_RW or PD_RW) is set — the gate
is the union of the two RW needs-update bits, not the processed device's
own bit.  "Runs" is observed as the first collaborator call of the run
being the expected-RW-image fetch for that device. -/
theorem sync_one_ec_rw_gate (env : Env) (devidx : Nat) (s : EcState)
    (ht : s.trace = []) :
    ((sync_one_ec env devidx s).2).trace.head? =
        some (Call.expectedImage devidx (select_rw s)) ↔
      sdEcsyncRw s.sdFlags = true := by
  by_cases hrw : sdEcsyncRw s.sdFlags = true
  · simp only [hrw, iff_true]
    obtain ⟨d, hd⟩ := update_ec_trace env devidx (select_rw s) s
    rw [ht] at hd
    simp only [sync_one_ec, rw_update_step, hrw, if_true]
    by_cases hu : (update_ec env devidx (select_rw s) s).1 ≠ VB2_SUCCESS
    · rw [if_pos hu]
      simp [hd]
    · rw [if_neg hu]
      obtain ⟨d2, hd2, _⟩ :=
        sync_tail_trace env devidx (select_rw s) (update_ec env devidx (select_rw s) s).2
      simp [hd2, hd]
  · have hrw' : sdEcsyncRw s.sdFlags = false := by simpa using hrw
    simp only [hrw', Bool.false_eq_true, iff_false]
    intro hhd
    obtain ⟨d, hd, hhead⟩ := sync_tail_trace env devidx (select_rw s) s
    rw [sync_one_ec] at hhd
    simp only [rw_update_step, hrw', Bool.false_eq_true, if_false] at hhd
    rw [hd, ht, List.nil_append] at hhd
    rcases hhead _ hhd with hc | hc | hc
    · exact absurd hc.symm (by simp)
    · have : select_rw s = VbSelect.readonly := by
        have := hc.symm
        injection this with h1 h2
        exact h2.symm
      exact select_rw_ne_readonly s this
    · exact absurd hc.symm (by simp)

/-- A state entering sync_one_ec with the PD RW needs-update bit set, the
EC RW bit clear, and the EC already in RW. -/
def pdOnlyRwState : EcState :=
  { sdFlags := { ecsyncPdRw := true, ecsyncEcInRw := true } }

/-- C1 counterexample: processing device 0 whose own RW needs-update bit
(EC_RW) is clear still performs the RW image update step (the first
collaborator call is the expected-RW-image fetch for device 0) because the
other device's PD_RW bit is set — refuting the claim that a device whose
own RW bit is clear undergoes no RW update. -/
theorem sync_one_ec_rw_gate_cex :
    pdOnlyRwState.sdFlags.ecsyncEcRw = false ∧
    ((sync_one_ec (fun _ => {}) 0 pdOnlyRwState).2).trace.head? =
      some (Call.expectedImage 0 (select_rw pdOnlyRwState)) := by
  decide

/-- C1 witness for the amended theorem: with the EC_RW bit set the update
step runs for device 0. -/
theorem sync_one_ec_rw_gate_witness :
    ((sync_one_ec (fun _ => {}) 0
        { sdFlags := { ecsyncEcRw := true, ecsyncEcInRw := true } }).2).trace.head? =
      some (Call.expectedImage 0 (select_rw
        { sdFlags := { ecsyncEcRw := true, ecsyncEcInRw := true } })) :=
  (sync_one_ec_rw_gate (fun _ => {}) 0
      { sdFlags := { ecsyncEcRw := true, ecsyncEcInRw := true } } rfl).mpr rfl
